import Mathlib

/-!
Shallow embedding of the Cult-Voice call-session server.

The repository contains successive revisions of one Node.js voicebot
server.  The richest revision (`src/unnamed/part_000`) runs the full
pipeline: inbound audio frames are buffered per connection, an 800 ms
silence timer segments utterances, and the timer callback transcribes
the buffered audio, generates a reply, synthesizes it and streams it
back in 320-byte PCM frames paced at 20 ms.  An earlier revision
(`src/server.js`, first part) transcribes only, and closes the socket
when the greeting cannot be sent.

Bytes are modelled as `List Nat`, buffers of chunks as `List (List Nat)`
(`Buffer.concat` becomes `List.flatten`).  The asynchronous external
capabilities (ffmpeg transcoding, Whisper, chat completion, ElevenLabs
TTS) are parameters of the model (`PipelineEnv`), each returning
`Except String` like the promise rejections they stand for.  Each event
handler of the source becomes a pure function from session state (and
the environment) to a result record that also logs the observable
effects: frames sent over the websocket, the request sent to the chat
capability, whether `ws.close()` was called, and the ordered trace of
mute / busy flag writes.
-/

namespace CultVoice

/-- A byte buffer (`Buffer` in the source). -/
abbrev Bytes := List Nat

/-- JavaScript `String.prototype.trim()`: strip leading and trailing
whitespace (modelled directly over the character list so that it is
kernel-computable). -/
def jsTrim (s : String) : String :=
  ⟨((s.data.dropWhile Char.isWhitespace).reverse.dropWhile
      Char.isWhitespace).reverse⟩

/-- One conversation turn, `{ role, content }` in the source. -/
structure Turn where
  role : String
  content : String
deriving DecidableEq, Repr

/-- History bound: `while (history.length > 20) history.shift()`. -/
def HISTORY_MAX : Nat := 20

/-- Silence threshold of the segmenter: `setTimeout(..., 800)`. -/
def SILENCE_MS : Nat := 800

/-- Post-playback guard delay in `part_000`: `setTimeout(..., 400)`. -/
def GUARD_MS : Nat := 400

/-- Post-greeting guard delay in `server.js`: `setTimeout(..., 500)`. -/
def JS_GUARD_MS : Nat := 500

/-- Outbound frame size: 20 ms of 8 kHz s16le mono PCM = 320 bytes. -/
def CHUNK_BYTES : Nat := 320

/-- Inter-frame pacing delay of `sendPcmStream` (milliseconds). -/
def DELAY_MS : Nat := 20

/-- The fixed greeting line (`GREETING_TEXT` in the source). -/
def GREETING_TEXT : String :=
  "Hello! Welcome to Cult Sector 62. Hindi ya English?"

/-- The fixed system prompt of `getAIReply` (content is irrelevant to the
claims; kept as an opaque fixed string as in the source). -/
def SYSTEM_PROMPT : String :=
  "You are the front-desk voice assistant for Cult Sector 62 gym."

/-- The `while (history.length > 20) history.shift()` loop of `push`:
drop elements from the front while the list is longer than the bound. -/
def shiftLoop (l : List Turn) : List Turn :=
  if HISTORY_MAX < l.length then shiftLoop l.tail else l
termination_by l.length
decreasing_by
  simp only [List.length_tail]
  omega

/-- `push(role, content)` of `part_000`: append the turn, then evict from
the front while over the bound. -/
def push (history : List Turn) (role content : String) : List Turn :=
  shiftLoop (history ++ [⟨role, content⟩])

/-- `sendPcmStream(ws, pcmBuf, chunkBytes, delayMs)`: the loop
`for (i = 0; i < len; i += chunkBytes) send(subarray(i, i + chunkBytes))`.
The returned list is the ordered sequence of frames passed to `ws.send`
(the 20 ms pacing delay between sends has no effect on the frame data).
A zero `chunkBytes` would loop forever in the source; the model returns
no frames in that case, which is outside every actual call site
(`chunkBytes` is always 320).  The loop is written with an iteration
budget (`fuel`, structurally decreasing so that it computes inside the
kernel) initialized to the buffer length; every iteration consumes at
least one byte, so the budget never runs out. -/
def sendPcmStreamGo : Nat → Bytes → Nat → List Bytes
  | 0, _, _ => []
  | fuel + 1, pcmBuf, chunkBytes =>
      if pcmBuf.isEmpty ∨ chunkBytes = 0 then []
      else pcmBuf.take chunkBytes ::
        sendPcmStreamGo fuel (pcmBuf.drop chunkBytes) chunkBytes

def sendPcmStream (pcmBuf : Bytes) (chunkBytes : Nat) : List Bytes :=
  sendPcmStreamGo pcmBuf.length pcmBuf chunkBytes

/-! ### Silence segmenter timing

`resetSilenceTimer` cancels the pending `setTimeout` and installs a new
one that expires `SILENCE_MS` after the frame that (re)installed it.
Given the strictly increasing arrival times of the inbound frames,
`timerFires times pending` returns the ordered list of instants at which
the timer callback actually runs: a frame arriving strictly before the
pending deadline cancels it; otherwise the deadline fired.  After the
last frame the pending deadline always fires (nothing cancels it). -/
def timerFires : List Nat → Option Nat → List Nat
  | [], none => []
  | [], some d => [d]
  | t :: rest, none => timerFires rest (some (t + SILENCE_MS))
  | t :: rest, some d =>
      if t < d then timerFires rest (some (t + SILENCE_MS))
      else d :: timerFires rest (some (t + SILENCE_MS))

/-- The arrival time of the most recent frame of `t :: ts`. -/
def lastArrival : Nat → List Nat → Nat
  | t, [] => t
  | _, t' :: ts => lastArrival t' ts

/-! ### Per-call session state and the silence-timer callback -/

/-- The per-connection mutable state of `part_000`:
`inboundChunks`, `isSpeaking`, `inFlight`, `history`. -/
structure SessionState where
  inboundChunks : List Bytes
  isSpeaking : Bool
  inFlight : Bool
  history : List Turn
deriving DecidableEq, Repr

/-- Buffer one inbound frame: `inboundChunks.push(Buffer.from(...))`. -/
def appendFrame (s : SessionState) (f : Bytes) : SessionState :=
  { s with inboundChunks := s.inboundChunks ++ [f] }

/-- Buffer a sequence of inbound frames in arrival order. -/
def appendFrames (s : SessionState) (fs : List Bytes) : SessionState :=
  fs.foldl appendFrame s

/-- The synchronous prefix of the silence-timer callback, up to the first
`await`: the three guard early-returns
(`if (!inboundChunks.length) return; if (isSpeaking) return;
if (inFlight) return;`), then `inFlight = true`,
`rawInbound = Buffer.concat(inboundChunks)`, `inboundChunks = []`.
Returns `none` when a guard fired, otherwise the concatenated bytes
handed to the pipeline together with the updated state. -/
def fireSync (s : SessionState) : Option (Bytes × SessionState) :=
  if s.inboundChunks.isEmpty then none
  else if s.isSpeaking then none
  else if s.inFlight then none
  else some (s.inboundChunks.flatten,
             { s with inFlight := true, inboundChunks := [] })

/-- The `finally` guard timeout of the timer callback:
`setTimeout(() => { isSpeaking = false; inFlight = false }, 400)`. -/
def guardExpire (s : SessionState) : SessionState :=
  { s with isSpeaking := false, inFlight := false }

/-- The external asynchronous capabilities, as deterministic fallible
functions: ffmpeg raw→WAV, Whisper transcription (the raw `resp.text`),
chat completion (the raw message content), ElevenLabs TTS (mp3 bytes),
and ffmpeg mp3→PCM. -/
structure PipelineEnv where
  rawToWav : Bytes → Except String Bytes
  whisper : Bytes → Except String String
  chat : List Turn → Except String String
  tts : String → Except String Bytes
  mp3ToPcm : Bytes → Except String Bytes

/-- `transcribeRawInbound(rawBuf)`: convert to WAV, call Whisper, and
return the trimmed text (`(resp.text || "").trim()`). -/
def transcribeRawInbound (env : PipelineEnv) (rawBuf : Bytes) :
    Except String String :=
  match env.rawToWav rawBuf with
  | .error e => .error e
  | .ok wav =>
      match env.whisper wav with
      | .error e => .error e
      | .ok t => .ok (jsTrim t)

/-- The message list `getAIReply` sends to the chat completion:
`[{role:"system",...}, ...history, {role:"user", content:userText}]`. -/
def mkMessages (history : List Turn) (userText : String) : List Turn :=
  ⟨"system", SYSTEM_PROMPT⟩ :: (history ++ [⟨"user", userText⟩])

/-- `getAIReply(history, userText)`: call the chat capability on
`mkMessages` and return the trimmed content. -/
def getAIReply (env : PipelineEnv) (history : List Turn)
    (userText : String) : Except String String :=
  match env.chat (mkMessages history userText) with
  | .error e => .error e
  | .ok c => .ok (jsTrim c)

/-- `speak(ws, text)`: TTS to mp3, decode to PCM, then
`sendPcmStream(ws, pcm)`; the result is the list of frames sent. -/
def speak (env : PipelineEnv) (text : String) :
    Except String (List Bytes) :=
  match env.tts text with
  | .error e => .error e
  | .ok mp3 =>
      match env.mp3ToPcm mp3 with
      | .error e => .error e
      | .ok pcm => .ok (sendPcmStream pcm CHUNK_BYTES)

/-- Observable flag / transmission events, in program order. -/
inductive Ev where
  | setMute (b : Bool)
  | setBusy (b : Bool)
  | sendFrame (f : Bytes)
  | scheduleGuard (ms : Nat)
deriving DecidableEq, Repr

/-- The outcome of one run of the silence-timer callback:
the session state when the callback body finished (before the guard
timeout expires), whether the `finally` guard timeout was scheduled,
the bytes this cycle consumed (`none` when a guard early-return fired),
the message list sent to the chat capability (if reached), the outbound
frames sent, whether `ws.close()` was called (the callback never calls
it), the logged error message (if any), and the event trace. -/
structure FireResult where
  s : SessionState
  guardScheduled : Bool
  consumed : Option Bytes
  llmRequest : Option (List Turn)
  sentFrames : List Bytes
  closedWs : Bool
  logged : Option String
  trace : List Ev
deriving DecidableEq, Repr

/-- The silence-timer callback of `part_000` (`resetSilenceTimer`'s
`setTimeout` body), run to completion of its body.  The `finally`
clause always schedules the 400 ms guard timeout once the guards have
been passed; its later expiry is `guardExpire`. -/
def silenceTimerFire (env : PipelineEnv) (s0 : SessionState) : FireResult :=
  match fireSync s0 with
  | none =>
      { s := s0, guardScheduled := false, consumed := none,
        llmRequest := none, sentFrames := [], closedWs := false,
        logged := none, trace := [] }
  | some (rawInbound, s1) =>
      match transcribeRawInbound env rawInbound with
      | .error e =>
          { s := s1, guardScheduled := true, consumed := some rawInbound,
            llmRequest := none, sentFrames := [], closedWs := false,
            logged := some e,
            trace := [.setBusy true, .scheduleGuard GUARD_MS] }
      | .ok userText =>
          if userText = "" then
            { s := { s1 with inFlight := false }, guardScheduled := true,
              consumed := some rawInbound, llmRequest := none,
              sentFrames := [], closedWs := false, logged := none,
              trace := [.setBusy true, .setBusy false,
                        .scheduleGuard GUARD_MS] }
          else
            let s2 := { s1 with history := push s1.history "user" userText }
            let req := mkMessages s2.history userText
            match getAIReply env s2.history userText with
            | .error e =>
                { s := s2, guardScheduled := true,
                  consumed := some rawInbound, llmRequest := some req,
                  sentFrames := [], closedWs := false, logged := some e,
                  trace := [.setBusy true, .scheduleGuard GUARD_MS] }
            | .ok answer =>
                if answer = "" then
                  { s := { s2 with inFlight := false },
                    guardScheduled := true, consumed := some rawInbound,
                    llmRequest := some req, sentFrames := [],
                    closedWs := false, logged := none,
                    trace := [.setBusy true, .setBusy false,
                              .scheduleGuard GUARD_MS] }
                else
                  let s3 := { s2 with
                    history := push s2.history "assistant" answer,
                    isSpeaking := true }
                  match speak env answer with
                  | .error e =>
                      { s := s3, guardScheduled := true,
                        consumed := some rawInbound,
                        llmRequest := some req, sentFrames := [],
                        closedWs := false, logged := some e,
                        trace := [.setBusy true, .setMute true,
                                  .scheduleGuard GUARD_MS] }
                  | .ok frames =>
                      { s := s3, guardScheduled := true,
                        consumed := some rawInbound,
                        llmRequest := some req, sentFrames := frames,
                        closedWs := false, logged := none,
                        trace := [.setBusy true, .setMute true]
                          ++ frames.map .sendFrame
                          ++ [.scheduleGuard GUARD_MS] }

/-- The full event trace of one timer-callback cycle, with the later
guard-timeout expiry (`isSpeaking = false; inFlight = false`) appended
when it was scheduled. -/
def fireFullTrace (env : PipelineEnv) (s : SessionState) : List Ev :=
  let r := silenceTimerFire env s
  r.trace ++ (if r.guardScheduled then [.setMute false, .setBusy false] else [])

/-! ### Greeting warmup and the `start` event handlers -/

/-- `warmupGreeting` of `part_000`: synthesize the greeting and cache
the PCM; its `catch` swallows the error, leaving the cache unchanged. -/
def warmupGreeting (env : PipelineEnv) (cache : Option Bytes) :
    Option Bytes :=
  match env.tts GREETING_TEXT with
  | .error _ => cache
  | .ok mp3 =>
      match env.mp3ToPcm mp3 with
      | .error _ => cache
      | .ok pcm => some pcm

/-- The outcome of a `start` event handler: final session state (before
the guard timeout expires), frames sent, whether `ws.close()` was
called, whether the guard timeout was scheduled, the logged error, the
event trace, and the greeting cache afterwards. -/
structure StartResult where
  s : SessionState
  sentFrames : List Bytes
  closedWs : Bool
  guardScheduled : Bool
  logged : Option String
  trace : List Ev
  cache : Option Bytes
deriving DecidableEq, Repr

/-- The `start` handler of `part_000`: set `isSpeaking = true`, warm the
cache if empty, stream the cached greeting (else `speak` it on demand),
append the assistant greeting turn; a failure is caught and logged
(the connection is NOT closed), and `finally` schedules a 400 ms
timeout that clears `isSpeaking` only. -/
def startHandlerPart000 (env : PipelineEnv) (cache0 : Option Bytes)
    (s : SessionState) : StartResult :=
  let s1 := { s with isSpeaking := true }
  let cache := match cache0 with
    | some p => some p
    | none => warmupGreeting env none
  match cache with
  | some pcm =>
      let fr := sendPcmStream pcm CHUNK_BYTES
      { s := { s1 with history := push s1.history "assistant" GREETING_TEXT },
        sentFrames := fr, closedWs := false, guardScheduled := true,
        logged := none,
        trace := .setMute true :: fr.map .sendFrame
          ++ [.scheduleGuard GUARD_MS],
        cache := cache }
  | none =>
      match speak env GREETING_TEXT with
      | .ok fr =>
          { s := { s1 with
              history := push s1.history "assistant" GREETING_TEXT },
            sentFrames := fr, closedWs := false, guardScheduled := true,
            logged := none,
            trace := .setMute true :: fr.map .sendFrame
              ++ [.scheduleGuard GUARD_MS],
            cache := cache }
      | .error e =>
          { s := s1, sentFrames := [], closedWs := false,
            guardScheduled := true, logged := some e,
            trace := [.setMute true, .scheduleGuard GUARD_MS],
            cache := cache }

/-- The guard expiry of the `part_000` start handler:
`setTimeout(() => (isSpeaking = false), 400)`. -/
def startGuardExpire (s : SessionState) : SessionState :=
  { s with isSpeaking := false }

/-- The process-wide greeting cache of `server.js` (first revision):
`cachedGreetingPcm` and `greetingReady`. -/
structure GreetingCache where
  cachedGreetingPcm : Option Bytes
  greetingReady : Bool
deriving DecidableEq, Repr

/-- `warmupGreeting` of `server.js`: on success set both the PCM and
`greetingReady = true`; its `catch` sets `greetingReady = false` and
leaves the cached PCM as it was. -/
def warmupGreetingJs (env : PipelineEnv) (g : GreetingCache) :
    GreetingCache :=
  match env.tts GREETING_TEXT with
  | .error _ => { g with greetingReady := false }
  | .ok mp3 =>
      match env.mp3ToPcm mp3 with
      | .error _ => { g with greetingReady := false }
      | .ok pcm => { cachedGreetingPcm := some pcm, greetingReady := true }

/-- The `start` handler of `server.js` (first revision): set
`isSpeaking = true`, warm the cache if not ready or empty, then
`sendPcmStream(ws, cachedGreetingPcm)` — when the cache is still `null`
this throws (`null.length`), and the `catch` logs and calls
`ws.close()`; `finally` schedules a 500 ms timeout clearing
`isSpeaking`. -/
def startHandlerJs (env : PipelineEnv) (g : GreetingCache)
    (s : SessionState) : StartResult :=
  let s1 := { s with isSpeaking := true }
  let g1 := if !g.greetingReady || g.cachedGreetingPcm.isNone
    then warmupGreetingJs env g else g
  match g1.cachedGreetingPcm with
  | some pcm =>
      let fr := sendPcmStream pcm CHUNK_BYTES
      { s := s1, sentFrames := fr, closedWs := false,
        guardScheduled := true, logged := none,
        trace := .setMute true :: fr.map .sendFrame
          ++ [.scheduleGuard JS_GUARD_MS],
        cache := g1.cachedGreetingPcm }
  | none =>
      { s := s1, sentFrames := [], closedWs := true,
        guardScheduled := true,
        logged := some "Greeting send failed",
        trace := [.setMute true, .scheduleGuard JS_GUARD_MS],
        cache := none }

/-- The full event trace of the `part_000` start handler, with the
guard expiry (which clears only `isSpeaking`) appended. -/
def startFullTrace (env : PipelineEnv) (cache0 : Option Bytes)
    (s : SessionState) : List Ev :=
  let r := startHandlerPart000 env cache0 s
  r.trace ++ (if r.guardScheduled then [.setMute false] else [])

/-! ## Helper lemmas -/

/-- `shiftLoop` drops exactly the over-bound prefix. -/
theorem shiftLoop_eq_drop :
    ∀ n l, l.length ≤ n → shiftLoop l = l.drop (l.length - HISTORY_MAX) := by
  intro n
  induction n with
  | zero =>
      intro l hl
      have h0 : l.length = 0 := Nat.le_zero.mp hl
      rw [shiftLoop]
      simp [h0, HISTORY_MAX]
  | succ n ih =>
      intro l hl
      rw [shiftLoop]
      by_cases h : HISTORY_MAX < l.length
      · have hne : l ≠ [] := by
          intro he
          rw [he] at h
          simp [HISTORY_MAX] at h
        have htl : l.tail.length ≤ n := by
          have := List.length_tail l
          omega
        have := ih l.tail htl
        rw [if_pos h, this, List.length_tail]
        rw [← List.drop_one, List.drop_drop]
        congr 1
        simp [HISTORY_MAX] at h ⊢
        omega
      · rw [if_neg h]
        have : l.length - HISTORY_MAX = 0 := by omega
        rw [this, List.drop_zero]

/-- `push` appends the turn and drops the over-bound prefix. -/
theorem push_eq (history : List Turn) (role content : String) :
    push history role content =
      (history ++ [Turn.mk role content]).drop
        (history.length + 1 - HISTORY_MAX) := by
  rw [push, shiftLoop_eq_drop (history ++ [Turn.mk role content]).length _ le_rfl]
  simp

/-- The pushed turn is always the last entry of the updated history. -/
theorem push_concat (history : List Turn) (role content : String) :
    ∃ pre, push history role content = pre ++ [Turn.mk role content] := by
  rw [push_eq]
  refine ⟨history.drop (history.length + 1 - HISTORY_MAX), ?_⟩
  rw [List.drop_append_of_le_length (by simp [HISTORY_MAX])]

/-- With enough fuel, the streamer emits no frames exactly on empty
input (or the out-of-scope zero frame size). -/
theorem sendPcmStreamGo_eq_nil_iff (fuel : Nat) (pcmBuf : Bytes) (F : Nat)
    (hfuel : pcmBuf.length ≤ fuel) :
    sendPcmStreamGo fuel pcmBuf F = [] ↔ (pcmBuf = [] ∨ F = 0) := by
  cases fuel with
  | zero =>
      have h0 : pcmBuf = [] := List.length_eq_zero.mp (Nat.le_zero.mp hfuel)
      simp [sendPcmStreamGo, h0]
  | succ n =>
      rw [sendPcmStreamGo]
      by_cases h : pcmBuf.isEmpty ∨ F = 0
      · rw [if_pos h]
        simp only [List.isEmpty_iff] at h
        simp [h]
      · rw [if_neg h]
        simp only [List.isEmpty_iff] at h
        simp [h]

/-- Concatenating the emitted frames restores the original buffer. -/
theorem sendPcmStream_flatten_aux :
    ∀ n (pcmBuf : Bytes) (F : Nat), pcmBuf.length ≤ n → 0 < F →
      (sendPcmStreamGo n pcmBuf F).flatten = pcmBuf := by
  intro n
  induction n with
  | zero =>
      intro pcmBuf F h hF
      have h0 : pcmBuf = [] := List.length_eq_zero.mp (Nat.le_zero.mp h)
      subst h0
      simp [sendPcmStreamGo]
  | succ n ih =>
      intro pcmBuf F h hF
      rw [sendPcmStreamGo]
      by_cases hp : pcmBuf.isEmpty ∨ F = 0
      · rw [if_pos hp]
        rcases hp with hp | hp
        · simp [List.isEmpty_iff.mp hp]
        · omega
      · rw [if_neg hp]
        simp only [not_or, List.isEmpty_iff] at hp
        have hlen : 0 < pcmBuf.length := List.length_pos.mpr hp.1
        have hdrop : (pcmBuf.drop F).length ≤ n := by
          simp only [List.length_drop]
          omega
        rw [List.flatten_cons, ih (pcmBuf.drop F) F hdrop hF,
            List.take_append_drop]

/-- The number of emitted frames is `⌈L / F⌉`. -/
theorem sendPcmStream_length_aux :
    ∀ n (pcmBuf : Bytes) (F : Nat), pcmBuf.length ≤ n → 0 < F →
      (sendPcmStreamGo n pcmBuf F).length = (pcmBuf.length + F - 1) / F := by
  intro n
  induction n with
  | zero =>
      intro pcmBuf F h hF
      have h0 : pcmBuf = [] := List.length_eq_zero.mp (Nat.le_zero.mp h)
      subst h0
      simp [sendPcmStreamGo, Nat.div_eq_of_lt (by omega : F - 1 < F)]
  | succ n ih =>
      intro pcmBuf F h hF
      rw [sendPcmStreamGo]
      by_cases hp : pcmBuf.isEmpty ∨ F = 0
      · rw [if_pos hp]
        rcases hp with hp | hp
        · simp [List.isEmpty_iff.mp hp,
                Nat.div_eq_of_lt (by omega : F - 1 < F)]
        · omega
      · rw [if_neg hp]
        simp only [not_or, List.isEmpty_iff] at hp
        have hlen : 0 < pcmBuf.length := List.length_pos.mpr hp.1
        have hdrop : (pcmBuf.drop F).length ≤ n := by
          simp only [List.length_drop]
          omega
        rw [List.length_cons, ih (pcmBuf.drop F) F hdrop hF,
            List.length_drop]
        have hR : pcmBuf.length + F - 1 = (pcmBuf.length - 1) + F := by omega
        rw [hR, Nat.add_div_right _ hF]
        by_cases hc : pcmBuf.length ≤ F
        · have h1 : pcmBuf.length - F = 0 := by omega
          rw [h1]
          have h2 : (0 + F - 1) / F = 0 := Nat.div_eq_of_lt (by omega)
          have h3 : (pcmBuf.length - 1) / F = 0 := Nat.div_eq_of_lt (by omega)
          omega
        · have h1 : pcmBuf.length - F + F - 1 = pcmBuf.length - 1 := by omega
          rw [h1]

/-- Every emitted frame is non-empty and no longer than the frame size. -/
theorem sendPcmStream_mem_aux :
    ∀ n (pcmBuf : Bytes) (F : Nat), pcmBuf.length ≤ n → 0 < F →
      ∀ f ∈ sendPcmStreamGo n pcmBuf F, f.length ≤ F ∧ f ≠ [] := by
  intro n
  induction n with
  | zero =>
      intro pcmBuf F h hF f hf
      have h0 : pcmBuf = [] := List.length_eq_zero.mp (Nat.le_zero.mp h)
      subst h0
      simp [sendPcmStreamGo] at hf
  | succ n ih =>
      intro pcmBuf F h hF f hf
      rw [sendPcmStreamGo] at hf
      by_cases hp : pcmBuf.isEmpty ∨ F = 0
      · rw [if_pos hp] at hf
        simp at hf
      · rw [if_neg hp] at hf
        simp only [not_or, List.isEmpty_iff] at hp
        have hlen : 0 < pcmBuf.length := List.length_pos.mpr hp.1
        rcases List.mem_cons.mp hf with hf | hf
        · subst hf
          constructor
          · simp
          · simp only [ne_eq, List.take_eq_nil_iff]
            push_neg
            exact ⟨by omega, hp.1⟩
        · have hdrop : (pcmBuf.drop F).length ≤ n := by
            simp only [List.length_drop]
            omega
          exact ih (pcmBuf.drop F) F hdrop hF f hf

/-- Every frame except possibly the last has length exactly `F`. -/
theorem sendPcmStream_dropLast_aux :
    ∀ n (pcmBuf : Bytes) (F : Nat), pcmBuf.length ≤ n → 0 < F →
      ∀ f ∈ (sendPcmStreamGo n pcmBuf F).dropLast, f.length = F := by
  intro n
  induction n with
  | zero =>
      intro pcmBuf F h hF f hf
      have h0 : pcmBuf = [] := List.length_eq_zero.mp (Nat.le_zero.mp h)
      subst h0
      simp [sendPcmStreamGo] at hf
  | succ n ih =>
      intro pcmBuf F h hF f hf
      rw [sendPcmStreamGo] at hf
      by_cases hp : pcmBuf.isEmpty ∨ F = 0
      · rw [if_pos hp] at hf
        simp at hf
      · rw [if_neg hp] at hf
        simp only [not_or, List.isEmpty_iff] at hp
        have hlen : 0 < pcmBuf.length := List.length_pos.mpr hp.1
        have hdrop : (pcmBuf.drop F).length ≤ n := by
          simp only [List.length_drop]
          omega
        by_cases hrest : sendPcmStreamGo n (pcmBuf.drop F) F = []
        · rw [hrest] at hf
          simp at hf
        · rw [List.dropLast_cons_of_ne_nil hrest] at hf
          have hdlen : pcmBuf.drop F ≠ [] := by
            intro hd
            exact hrest
              ((sendPcmStreamGo_eq_nil_iff n _ _ hdrop).mpr (Or.inl hd))
          have hFlt : F < pcmBuf.length := by
            by_contra hc
            exact hdlen (List.drop_eq_nil_of_le (by omega))
          rcases List.mem_cons.mp hf with hf | hf
          · subst hf
            simp only [List.length_take]
            omega
          · exact ih (pcmBuf.drop F) F hdrop hF f hf

/-- With every gap below the threshold, the pending deadline is renewed
by each frame and the single surviving deadline is the one installed by
the most recent frame. -/
theorem timerFires_chain :
    ∀ (ts : List Nat) (t : Nat),
      List.Chain' (fun a b => a < b ∧ b < a + SILENCE_MS) (t :: ts) →
      timerFires ts (some (t + SILENCE_MS)) =
        [lastArrival t ts + SILENCE_MS] := by
  intro ts
  induction ts with
  | nil =>
      intro t _
      rfl
  | cons t' ts' ih =>
      intro t hchain
      rw [List.chain'_cons] at hchain
      have hlt : t' < t + SILENCE_MS := hchain.1.2
      show (if t' < t + SILENCE_MS then _ else _) = _
      rw [if_pos hlt]
      exact ih t' hchain.2

/-- `appendFrames` only appends to the inbound chunk list. -/
theorem appendFrames_inboundChunks :
    ∀ (fs : List Bytes) (s : SessionState),
      (appendFrames s fs).inboundChunks = s.inboundChunks ++ fs ∧
      (appendFrames s fs).isSpeaking = s.isSpeaking ∧
      (appendFrames s fs).inFlight = s.inFlight := by
  intro fs
  induction fs with
  | nil =>
      intro s
      simp [appendFrames]
  | cons f fs ih =>
      intro s
      have := ih (appendFrame s f)
      simp only [appendFrames, List.foldl_cons] at this ⊢
      simp only [appendFrame] at this
      simp [appendFrame, this]

/-- `fireSync` succeeds exactly when all three guards are down, and then
consumes the whole buffer and clears it. -/
theorem fireSync_pos (s : SessionState)
    (h1 : s.inboundChunks ≠ []) (h2 : s.isSpeaking = false)
    (h3 : s.inFlight = false) :
    fireSync s = some (s.inboundChunks.flatten,
      { s with inFlight := true, inboundChunks := [] }) := by
  rw [fireSync, if_neg (by simp [List.isEmpty_iff, h1]), h2, h3]
  simp

/-- Whenever a cycle is launched, the bytes it consumes are recorded in
the `consumed` field of the callback result. -/
theorem silenceTimerFire_consumed (env : PipelineEnv) (s : SessionState)
    (b : Bytes) (s1 : SessionState) (h : fireSync s = some (b, s1)) :
    (silenceTimerFire env s).consumed = some b := by
  simp only [silenceTimerFire, h]
  cases htr : transcribeRawInbound env b with
  | error e => rfl
  | ok u =>
      by_cases hu : u = ""
      · simp [hu]
      · simp only [if_neg hu]
        cases hch : getAIReply env (push s1.history "user" u) u with
        | error e => rfl
        | ok a =>
            by_cases ha : a = ""
            · simp [ha]
            · simp only [if_neg ha]
              cases hsp : speak env a with
              | error e => rfl
              | ok fr => rfl

/-! ## Concrete test data -/

/-- A fresh session, as created on `wss.on("connection")`. -/
def sInit : SessionState :=
  { inboundChunks := [], isSpeaking := false, inFlight := false,
    history := [] }

/-- A session with two buffered frames and all guards down. -/
def sReady : SessionState :=
  { inboundChunks := [[1, 2], [3]], isSpeaking := false, inFlight := false,
    history := [] }

/-- An environment in which every capability succeeds. -/
def envOk : PipelineEnv :=
  { rawToWav := fun b => .ok b,
    whisper := fun _ => .ok "hello",
    chat := fun _ => .ok "hi there",
    tts := fun _ => .ok [7, 7, 7],
    mp3ToPcm := fun b => .ok b }

/-- An environment in which speech recognition fails. -/
def envSttFail : PipelineEnv :=
  { envOk with whisper := fun _ => .error "stt down" }

/-- An environment in which recognition yields only whitespace. -/
def envBlankText : PipelineEnv :=
  { envOk with whisper := fun _ => .ok "  " }

/-- An environment in which speech synthesis fails. -/
def envTtsFail : PipelineEnv :=
  { envOk with tts := fun _ => .error "TTS down" }

/-! ## Claims -/

/-- C8: after each `push`, the history never exceeds 20 entries; when
eviction occurs it removes exactly the oldest entries from the front
(FIFO), leaving the remaining turns in their original order — the
result is always a suffix of the appended history. -/
theorem c8_history_bounded_fifo (history : List Turn)
    (role content : String) :
    (push history role content).length ≤ HISTORY_MAX ∧
    (history.length < HISTORY_MAX →
      push history role content = history ++ [Turn.mk role content]) ∧
    (history.length = HISTORY_MAX →
      push history role content =
        history.tail ++ [Turn.mk role content]) ∧
    push history role content =
      (history ++ [Turn.mk role content]).drop
        (history.length + 1 - HISTORY_MAX) := by
  refine ⟨?_, ?_, ?_, push_eq history role content⟩
  · rw [push_eq]
    simp only [List.length_drop, List.length_append, List.length_cons,
      List.length_nil, HISTORY_MAX]
    omega
  · intro hlt
    rw [push_eq]
    simp only [HISTORY_MAX] at hlt ⊢
    have h0 : history.length + 1 - 20 = 0 := by omega
    rw [h0, List.drop_zero]
  · intro heq
    rw [push_eq, heq]
    have h1 : HISTORY_MAX + 1 - HISTORY_MAX = 1 := by
      simp [HISTORY_MAX]
    rw [h1, List.drop_append_of_le_length (by rw [heq]; simp [HISTORY_MAX]),
        List.drop_one]

/-- C4: for a buffer of length `L` and frame size `F > 0`, the playback
streamer emits exactly `⌈L / F⌉` frames in order, each of size exactly
`F` except possibly the last (shorter but non-empty), and concatenating
the frames restores the original buffer (so none is dropped, duplicated
or reordered); the deployed frame size is 320 bytes, the pacing delay
20 ms. -/
theorem c4_playback_framing (pcmBuf : Bytes) (F : Nat) (hF : 0 < F) :
    (sendPcmStream pcmBuf F).length = (pcmBuf.length + F - 1) / F ∧
    (sendPcmStream pcmBuf F).flatten = pcmBuf ∧
    (∀ f ∈ (sendPcmStream pcmBuf F).dropLast, f.length = F) ∧
    (∀ f ∈ sendPcmStream pcmBuf F, f.length ≤ F ∧ f ≠ []) ∧
    CHUNK_BYTES = 320 ∧ DELAY_MS = 20 :=
  ⟨sendPcmStream_length_aux pcmBuf.length pcmBuf F le_rfl hF,
   sendPcmStream_flatten_aux pcmBuf.length pcmBuf F le_rfl hF,
   sendPcmStream_dropLast_aux pcmBuf.length pcmBuf F le_rfl hF,
   sendPcmStream_mem_aux pcmBuf.length pcmBuf F le_rfl hF, rfl, rfl⟩

/-- Witness for C4 on a 700-byte buffer at the deployed frame size. -/
theorem c4_playback_framing_witness :
    0 < 320 ∧
    (sendPcmStream (List.range 700) 320).length =
      ((List.range 700).length + 320 - 1) / 320 ∧
    (sendPcmStream (List.range 700) 320).flatten = List.range 700 :=
  ⟨by decide, (c4_playback_framing (List.range 700) 320 (by decide)).1,
   (c4_playback_framing (List.range 700) 320 (by decide)).2.1⟩

/-- C3: when consecutive inbound frames are all separated by less than
800 ms, no timer fire happens between them; each frame cancels the
pending deadline and restarts it, so the single end-of-utterance fire
happens exactly 800 ms after the most recent frame. -/
theorem c3_silence_timer_fire (t : Nat) (ts : List Nat)
    (hchain : List.Chain' (fun a b => a < b ∧ b < a + SILENCE_MS)
      (t :: ts)) :
    timerFires (t :: ts) none = [lastArrival t ts + SILENCE_MS] ∧
    SILENCE_MS = 800 :=
  ⟨timerFires_chain ts t hchain, rfl⟩

/-- Witness for C3: three frames 100 and 200 ms apart fire once, 800 ms
after the last frame. -/
theorem c3_silence_timer_fire_witness :
    List.Chain' (fun a b => a < b ∧ b < a + SILENCE_MS) [0, 100, 300] ∧
    timerFires [0, 100, 300] none = [lastArrival 0 [100, 300] + SILENCE_MS] :=
  ⟨by norm_num [List.chain'_cons, List.chain'_singleton, SILENCE_MS],
   (c3_silence_timer_fire 0 [100, 300]
     (by norm_num [List.chain'_cons, List.chain'_singleton, SILENCE_MS])).1⟩

/-- The session state right after a launch from `sReady`. -/
def sReadyAfter : SessionState :=
  { inboundChunks := [], isSpeaking := false, inFlight := true,
    history := [] }

/-- C1: when the silence-timer fire launches a pipeline cycle, the whole
inbound buffer is concatenated and cleared in the synchronous prefix of
the callback (`fireSync`, before any `await`); the launched cycle
consumes exactly those bytes, and any subsequent launch consumes exactly
the frames appended after this one — so the bytes of successive cycles
are disjoint, none processed twice, none left behind. -/
theorem c1_buffer_flushed_once (s : SessionState) (b : Bytes)
    (s1 : SessionState) (h : fireSync s = some (b, s1)) :
    b = s.inboundChunks.flatten ∧
    s1.inboundChunks = [] ∧
    (∀ env : PipelineEnv, (silenceTimerFire env s).consumed = some b) ∧
    (∀ (fs : List Bytes) (b2 : Bytes) (s2 : SessionState),
        fireSync (appendFrames (guardExpire s1) fs) = some (b2, s2) →
        b2 = fs.flatten) := by
  have h0 := h
  rw [fireSync] at h
  by_cases h1 : s.inboundChunks.isEmpty
  · rw [if_pos h1] at h
    exact absurd h (by simp)
  rw [if_neg h1] at h
  by_cases h2 : s.isSpeaking
  · rw [if_pos h2] at h
    exact absurd h (by simp)
  rw [if_neg h2] at h
  by_cases h3 : s.inFlight
  · rw [if_pos h3] at h
    exact absurd h (by simp)
  rw [if_neg h3] at h
  simp only [Option.some.injEq, Prod.mk.injEq] at h
  obtain ⟨hb, hs1⟩ := h
  have hs1chunks : s1.inboundChunks = [] := by
    rw [← hs1]
  refine ⟨hb.symm, hs1chunks, ?_, ?_⟩
  · intro env
    exact silenceTimerFire_consumed env s b s1 h0
  · intro fs b2 s2 hf
    have hge : (guardExpire s1).inboundChunks = s1.inboundChunks := rfl
    have hchunks : (appendFrames (guardExpire s1) fs).inboundChunks = fs := by
      rw [(appendFrames_inboundChunks fs (guardExpire s1)).1, hge,
          hs1chunks, List.nil_append]
    have hfs : fs ≠ [] := by
      intro he
      rw [fireSync,
          if_pos (by rw [List.isEmpty_iff, hchunks]; exact he)] at hf
      exact absurd hf (by simp)
    have hspk : (appendFrames (guardExpire s1) fs).isSpeaking = false := by
      rw [(appendFrames_inboundChunks fs (guardExpire s1)).2.1]
      rfl
    have hifl : (appendFrames (guardExpire s1) fs).inFlight = false := by
      rw [(appendFrames_inboundChunks fs (guardExpire s1)).2.2]
      rfl
    rw [fireSync_pos _ (by rw [hchunks]; exact hfs) hspk hifl] at hf
    simp only [Option.some.injEq, Prod.mk.injEq] at hf
    rw [← hf.1, hchunks]

/-- Witness for C1: a launch from the concrete ready session consumes
the concatenation `[1, 2, 3]` of its two buffered frames. -/
theorem c1_buffer_flushed_once_witness :
    fireSync sReady = some ([1, 2, 3], sReadyAfter) ∧
    [1, 2, 3] = sReady.inboundChunks.flatten ∧
    (silenceTimerFire envOk sReady).consumed = some [1, 2, 3] := by
  have h : fireSync sReady = some ([1, 2, 3], sReadyAfter) := by decide
  have hc := c1_buffer_flushed_once sReady [1, 2, 3] sReadyAfter h
  exact ⟨h, hc.1, hc.2.2.1 envOk⟩

/-- C2: when the session is muted (`isSpeaking`), a pipeline is already
in flight, or the inbound buffer is empty, the silence-timer fire is a
complete no-op: the state (buffer, flags, history) is unchanged, nothing
is consumed, no pipeline step runs, no frame is sent, no guard timeout
is scheduled. -/
theorem c2_guarded_fire_noop (env : PipelineEnv) (s : SessionState)
    (h : s.isSpeaking = true ∨ s.inFlight = true ∨ s.inboundChunks = []) :
    silenceTimerFire env s =
      { s := s, guardScheduled := false, consumed := none,
        llmRequest := none, sentFrames := [], closedWs := false,
        logged := none, trace := [] } := by
  have hnone : fireSync s = none := by
    rcases h with h | h | h
    · simp [fireSync, h]
    · simp [fireSync, h]
    · simp [fireSync, h]
  simp [silenceTimerFire, hnone]

/-- Witness for C2 at a concrete muted session with a non-empty buffer. -/
theorem c2_guarded_fire_noop_witness :
    ((⟨[[5]], true, false, []⟩ : SessionState).isSpeaking = true ∨
      (⟨[[5]], true, false, []⟩ : SessionState).inFlight = true ∨
      (⟨[[5]], true, false, []⟩ : SessionState).inboundChunks = []) ∧
    silenceTimerFire envOk ⟨[[5]], true, false, []⟩ =
      { s := ⟨[[5]], true, false, []⟩, guardScheduled := false,
        consumed := none, llmRequest := none, sentFrames := [],
        closedWs := false, logged := none, trace := [] } :=
  ⟨Or.inl rfl, c2_guarded_fire_noop envOk ⟨[[5]], true, false, []⟩ (Or.inl rfl)⟩

/-- C5: a failure in any pipeline stage — transcoding (raw→WAV inside
`transcribeRawInbound`, mp3→PCM inside `speak`), recognition, reply
generation or synthesis — is caught and logged, the cycle aborts
without sending further audio or closing the connection, the guard
timeout is scheduled, and on its expiry both `isSpeaking` and
`inFlight` are cleared: the session is back to listening. -/
theorem c5_pipeline_failure_recovers (env : PipelineEnv) (s : SessionState)
    (h1 : s.inboundChunks ≠ []) (h2 : s.isSpeaking = false)
    (h3 : s.inFlight = false)
    (hfail :
      (∃ e, transcribeRawInbound env s.inboundChunks.flatten =
        .error e) ∨
      (∃ u e, transcribeRawInbound env s.inboundChunks.flatten = .ok u ∧
        u ≠ "" ∧ getAIReply env (push s.history "user" u) u = .error e) ∨
      (∃ u a e,
        transcribeRawInbound env s.inboundChunks.flatten = .ok u ∧
        u ≠ "" ∧ getAIReply env (push s.history "user" u) u = .ok a ∧
        a ≠ "" ∧ speak env a = .error e)) :
    ∃ e, (silenceTimerFire env s).logged = some e ∧
      (silenceTimerFire env s).closedWs = false ∧
      (silenceTimerFire env s).sentFrames = [] ∧
      (silenceTimerFire env s).guardScheduled = true ∧
      (guardExpire (silenceTimerFire env s).s).isSpeaking = false ∧
      (guardExpire (silenceTimerFire env s).s).inFlight = false := by
  have hsync := fireSync_pos s h1 h2 h3
  rcases hfail with ⟨e, he⟩ | ⟨u, e, ht, hu, hch⟩ | ⟨u, a, e, ht, hu, hch, ha, hsp⟩
  · refine ⟨e, ?_⟩
    simp [silenceTimerFire, hsync, he, guardExpire]
  · refine ⟨e, ?_⟩
    simp [silenceTimerFire, hsync, ht, hu, hch, guardExpire]
  · refine ⟨e, ?_⟩
    simp [silenceTimerFire, hsync, ht, hu, hch, ha, hsp, guardExpire]

/-- Witness for C5: a recognition failure on the concrete ready session
is logged and the session recovers. -/
theorem c5_pipeline_failure_recovers_witness :
    sReady.inboundChunks ≠ [] ∧
    transcribeRawInbound envSttFail sReady.inboundChunks.flatten =
      .error "stt down" ∧
    ∃ e, (silenceTimerFire envSttFail sReady).logged = some e ∧
      (silenceTimerFire envSttFail sReady).closedWs = false ∧
      (silenceTimerFire envSttFail sReady).sentFrames = [] ∧
      (silenceTimerFire envSttFail sReady).guardScheduled = true ∧
      (guardExpire (silenceTimerFire envSttFail sReady).s).isSpeaking
        = false ∧
      (guardExpire (silenceTimerFire envSttFail sReady).s).inFlight
        = false :=
  ⟨by decide, rfl,
   c5_pipeline_failure_recovers envSttFail sReady (by decide) rfl rfl
     (Or.inl ⟨"stt down", rfl⟩)⟩

/-- C7: when recognition succeeds but the transcript trims to the empty
string, the cycle aborts: no caller turn is recorded, no reply request
is made, no audio is sent, `inFlight` is reset to false immediately,
`isSpeaking` stays false, and the connection stays open. -/
theorem c7_empty_transcript_aborts (env : PipelineEnv) (s : SessionState)
    (wav : Bytes) (w : String)
    (h1 : s.inboundChunks ≠ []) (h2 : s.isSpeaking = false)
    (h3 : s.inFlight = false)
    (ht : env.rawToWav s.inboundChunks.flatten = .ok wav)
    (hw : env.whisper wav = .ok w) (htrim : jsTrim w = "") :
    (silenceTimerFire env s).s.history = s.history ∧
    (silenceTimerFire env s).llmRequest = none ∧
    (silenceTimerFire env s).sentFrames = [] ∧
    (silenceTimerFire env s).s.inFlight = false ∧
    (silenceTimerFire env s).s.isSpeaking = false ∧
    (silenceTimerFire env s).guardScheduled = true ∧
    (silenceTimerFire env s).closedWs = false := by
  have hsync := fireSync_pos s h1 h2 h3
  have htr : transcribeRawInbound env s.inboundChunks.flatten = .ok "" := by
    simp [transcribeRawInbound, ht, hw, htrim]
  simp [silenceTimerFire, hsync, htr, h2]

/-- Witness for C7: a whitespace-only transcript on the concrete ready
session aborts the cycle with no recorded turn. -/
theorem c7_empty_transcript_aborts_witness :
    sReady.inboundChunks ≠ [] ∧
    envBlankText.whisper [1, 2, 3] = .ok "  " ∧ jsTrim "  " = "" ∧
    (silenceTimerFire envBlankText sReady).s.history = sReady.history ∧
    (silenceTimerFire envBlankText sReady).llmRequest = none ∧
    (silenceTimerFire envBlankText sReady).s.inFlight = false := by
  have h := c7_empty_transcript_aborts envBlankText sReady [1, 2, 3] "  "
    (by decide) rfl rfl rfl rfl (by decide)
  exact ⟨by decide, rfl, by decide, h.1, h.2.1, h.2.2.2.1⟩

/-- C10: whenever a cycle reaches reply generation, the request handed
to the chat capability contains the caller's latest utterance twice and
consecutively: `push("user", userText)` has already appended it to the
history, and `getAIReply` appends the same text again as a final user
message after that history. -/
theorem c10_user_text_duplicated (env : PipelineEnv) (s : SessionState)
    (u : String)
    (h1 : s.inboundChunks ≠ []) (h2 : s.isSpeaking = false)
    (h3 : s.inFlight = false)
    (ht : transcribeRawInbound env s.inboundChunks.flatten = .ok u)
    (hu : u ≠ "") :
    ∃ pre, (silenceTimerFire env s).llmRequest =
      some (Turn.mk "system" SYSTEM_PROMPT ::
        (pre ++ [Turn.mk "user" u, Turn.mk "user" u])) := by
  have hsync := fireSync_pos s h1 h2 h3
  obtain ⟨pre, hpre⟩ := push_concat s.history "user" u
  have hreq : mkMessages (push s.history "user" u) u =
      Turn.mk "system" SYSTEM_PROMPT ::
        (pre ++ [Turn.mk "user" u, Turn.mk "user" u]) := by
    rw [mkMessages, hpre]
    simp
  refine ⟨pre, ?_⟩
  simp only [silenceTimerFire, hsync]
  rw [ht]
  simp only [if_neg hu]
  cases hch : getAIReply env (push s.history "user" u) u with
  | error e => simpa using hreq
  | ok a =>
      by_cases ha : a = ""
      · simp only [if_pos ha]
        simpa using hreq
      · simp only [if_neg ha]
        cases hsp : speak env a with
        | error e => simpa using hreq
        | ok fr => simpa using hreq

/-- Witness for C10: on the concrete ready session the request ends
with the transcript "hello" twice. -/
theorem c10_user_text_duplicated_witness :
    transcribeRawInbound envOk sReady.inboundChunks.flatten =
      .ok "hello" ∧
    ∃ pre, (silenceTimerFire envOk sReady).llmRequest =
      some (Turn.mk "system" SYSTEM_PROMPT ::
        (pre ++ [Turn.mk "user" "hello", Turn.mk "user" "hello"])) :=
  ⟨rfl,
   c10_user_text_duplicated envOk sReady "hello" (by decide) rfl rfl
     rfl (by decide)⟩

/-- Every run of the `part_000` start handler — cached greeting, warmed
on demand, `speak` fallback, or failure — emits the same bracket: mute
set first, then exactly the frames it sent, then the guard timeout; and
the guard timeout is always scheduled. -/
theorem startHandlerPart000_shape (env : PipelineEnv)
    (cache0 : Option Bytes) (s : SessionState) :
    (startHandlerPart000 env cache0 s).trace =
      Ev.setMute true ::
        (startHandlerPart000 env cache0 s).sentFrames.map Ev.sendFrame
        ++ [Ev.scheduleGuard GUARD_MS] ∧
    (startHandlerPart000 env cache0 s).guardScheduled = true := by
  rw [startHandlerPart000.eq_def]
  cases cache0 with
  | some p => simp
  | none =>
      cases hwu : warmupGreeting env none with
      | some pcm => simp [hwu]
      | none =>
          simp only [hwu]
          cases hsp : speak env GREETING_TEXT with
          | error e => simp [hsp]
          | ok fr => simp [hsp]

/-- C9: every outbound synthesized-audio transmission is bracketed by
mute.  In the trace of a successful reply cycle, `isSpeaking` is set
true before the first frame is sent, stays set through all frames and
the scheduling of the guard timeout, and only the guard expiry (400 ms,
within the claimed 400–500 ms range) clears it together with
`inFlight`.  For the greeting, the bracket holds on every path of the
`start` handler: the cached-greeting path (stated explicitly for a
populated cache), and — by the universally quantified conjunct over
every cache state and environment — also the on-demand paths where the
cache is empty and the greeting is warmed or spoken directly; in all of
them mute is set before the first sent frame, no un-mute event occurs
before the guard timeout is scheduled, and the guard expiry clears
`isSpeaking`. -/
theorem c9_mute_brackets_playback (env : PipelineEnv) (s s0 : SessionState)
    (u a : String) (fr : List Bytes) (pcm : Bytes)
    (h1 : s.inboundChunks ≠ []) (h2 : s.isSpeaking = false)
    (h3 : s.inFlight = false)
    (ht : transcribeRawInbound env s.inboundChunks.flatten = .ok u)
    (hu : u ≠ "")
    (hc : getAIReply env (push s.history "user" u) u = .ok a)
    (ha : a ≠ "")
    (hs : speak env a = .ok fr) :
    fireFullTrace env s =
      [Ev.setBusy true, Ev.setMute true] ++ fr.map Ev.sendFrame
        ++ [Ev.scheduleGuard GUARD_MS, Ev.setMute false,
            Ev.setBusy false] ∧
    startFullTrace env (some pcm) s0 =
      Ev.setMute true :: (sendPcmStream pcm CHUNK_BYTES).map Ev.sendFrame
        ++ [Ev.scheduleGuard GUARD_MS, Ev.setMute false] ∧
    (∀ (env2 : PipelineEnv) (cache0 : Option Bytes) (s2 : SessionState),
      startFullTrace env2 cache0 s2 =
        Ev.setMute true ::
          (startHandlerPart000 env2 cache0 s2).sentFrames.map Ev.sendFrame
          ++ [Ev.scheduleGuard GUARD_MS, Ev.setMute false]) ∧
    400 ≤ GUARD_MS ∧ GUARD_MS ≤ 500 := by
  have hsync := fireSync_pos s h1 h2 h3
  refine ⟨?_, ?_, ?_, by decide, by decide⟩
  · simp only [fireFullTrace, silenceTimerFire, hsync]
    rw [ht]
    simp [hu, hc, ha, hs]
  · simp [startFullTrace, startHandlerPart000]
  · intro env2 cache0 s2
    have hsh := startHandlerPart000_shape env2 cache0 s2
    simp only [startFullTrace, hsh.1, hsh.2, if_true]
    simp

/-- Witness for C9: the concrete all-success environment sends one
reply frame and one greeting frame inside the mute bracket, both from a
populated cache and — exercising the on-demand path — from an empty
cache that is warmed during the `start` handler itself. -/
theorem c9_mute_brackets_playback_witness :
    transcribeRawInbound envOk sReady.inboundChunks.flatten =
      .ok "hello" ∧
    speak envOk "hi there" = .ok [[7, 7, 7]] ∧
    fireFullTrace envOk sReady =
      [Ev.setBusy true, Ev.setMute true] ++
        [[7, 7, 7]].map Ev.sendFrame
        ++ [Ev.scheduleGuard GUARD_MS, Ev.setMute false,
            Ev.setBusy false] ∧
    startFullTrace envOk (some [9, 9]) sInit =
      Ev.setMute true ::
        (sendPcmStream [9, 9] CHUNK_BYTES).map Ev.sendFrame
        ++ [Ev.scheduleGuard GUARD_MS, Ev.setMute false] ∧
    (startHandlerPart000 envOk none sInit).sentFrames = [[7, 7, 7]] ∧
    startFullTrace envOk none sInit =
      Ev.setMute true ::
        (startHandlerPart000 envOk none sInit).sentFrames.map Ev.sendFrame
        ++ [Ev.scheduleGuard GUARD_MS, Ev.setMute false] := by
  have h := c9_mute_brackets_playback envOk sReady sInit "hello"
    "hi there" [[7, 7, 7]] [9, 9] (by decide) rfl rfl rfl (by decide)
    rfl (by decide) rfl
  exact ⟨rfl, rfl, h.1, h.2.1, rfl, h.2.2.1 envOk none sInit⟩

/-- C6 as claimed is false for `part_000`: its `start` handler catches a
greeting failure, logs it and leaves the connection open. -/
theorem c6_greeting_failure_counterexample :
    (startHandlerPart000 envTtsFail none sInit).logged =
      some "TTS down" ∧
    (startHandlerPart000 envTtsFail none sInit).closedWs = false := by
  constructor
  · rfl
  · rfl

/-- C6 amended: only the `server.js` revision treats a greeting failure
as fatal — when the cached greeting is absent and the warmup attempt
fails to produce one, its `start` handler calls `ws.close()`; the
`part_000` start handler never closes the connection, whatever
happens. -/
theorem c6_greeting_failure_closes (env : PipelineEnv)
    (g : GreetingCache) (s : SessionState)
    (hc : g.cachedGreetingPcm = none)
    (hw : (warmupGreetingJs env g).cachedGreetingPcm = none) :
    (startHandlerJs env g s).closedWs = true ∧
    (∀ (env2 : PipelineEnv) (cache0 : Option Bytes) (s2 : SessionState),
      (startHandlerPart000 env2 cache0 s2).closedWs = false) := by
  constructor
  · have hcond : (!g.greetingReady || g.cachedGreetingPcm.isNone) = true := by
      rw [hc]
      simp
    simp only [startHandlerJs, hcond, if_true, hw]
  · intro env2 cache0 s2
    rw [startHandlerPart000.eq_def]
    cases cache0 with
    | some p => rfl
    | none =>
        cases hwu : warmupGreeting env2 none with
        | some pcm => simp [hwu]
        | none =>
            simp only [hwu]
            cases hsp : speak env2 GREETING_TEXT with
            | error e => simp [hsp]
            | ok fr => simp [hsp]

/-- Witness for C6 (amended): with synthesis down and an empty cache,
the `server.js` start handler closes the connection. -/
theorem c6_greeting_failure_closes_witness :
    (⟨none, false⟩ : GreetingCache).cachedGreetingPcm = none ∧
    (startHandlerJs envTtsFail ⟨none, false⟩ sInit).closedWs = true :=
  ⟨rfl, (c6_greeting_failure_closes envTtsFail ⟨none, false⟩ sInit
    rfl rfl).1⟩

end CultVoice
